import Mathlib

/-!
Shallow embedding of the eva01 transaction dispatch and submission engine:
src/marginfi_ixs.rs, src/wrappers/liquidator_account.rs, src/jito/mod.rs,
src/cli/entrypoints.rs. Machine integers (u64 slot numbers, amounts) are
modelled as Nat, with wrapping u64 subtraction made explicit where the code
subtracts slot numbers. Addresses (solana Pubkey values) are modelled as Nat;
the zero/default address is 0. Anchor account metas are modelled by their
pubkeys: the signer/writable flags are assigned by the external marginfi
crate and play no role in any property below, while the pubkey sequence and
its order do.
-/

namespace Eva01

/-- An on-chain address (solana_sdk Pubkey). The zero/default address is 0. -/
abbrev Pubkey := Nat

/-- The payload (the `data` field) of an Instruction, modelled symbolically by
the constructor that produced it in the source. -/
inductive IxData where
  | lendingAccountDeposit (amount : Nat)
  | lendingAccountRepay (amount : Nat) (repay_all : Option Bool)
  | lendingAccountWithdraw (amount : Nat) (withdraw_all : Option Bool)
  | lendingAccountLiquidate (asset_amount : Nat)
  | setComputeUnitLimit (units : Nat)
  | setComputeUnitPrice (micro_lamports : Nat)
  | systemTransfer (lamports : Nat)
  deriving DecidableEq, Repr

/-- solana_sdk::instruction::Instruction; `accounts` holds the account metas,
modelled by their pubkeys in order. -/
structure Instruction where
  program_id : Pubkey
  accounts : List Pubkey
  data : IxData
  deriving DecidableEq, Repr

/-- Account metas of marginfi::accounts::LendingAccountDeposit
.to_account_metas(Some(true)): the fields in declaration order
(src/marginfi_ixs.rs lines 22-31). -/
def lendingAccountDepositMetas (marginfi_group marginfi_account signer bank
    signer_token_account bank_liquidity_vault token_program : Pubkey) :
    List Pubkey :=
  [marginfi_group, marginfi_account, signer, bank, signer_token_account,
   bank_liquidity_vault, token_program]

/-- Account metas of marginfi::accounts::LendingAccountRepay
.to_account_metas(Some(true)) (src/marginfi_ixs.rs lines 50-59). -/
def lendingAccountRepayMetas (marginfi_group marginfi_account signer bank
    signer_token_account bank_liquidity_vault token_program : Pubkey) :
    List Pubkey :=
  [marginfi_group, marginfi_account, signer, bank, signer_token_account,
   bank_liquidity_vault, token_program]

/-- Account metas of marginfi::accounts::LendingAccountWithdraw
.to_account_metas(Some(true)) (src/marginfi_ixs.rs lines 78-88). -/
def lendingAccountWithdrawMetas (marginfi_group marginfi_account signer bank
    destination_token_account bank_liquidity_vault_authority
    bank_liquidity_vault token_program : Pubkey) : List Pubkey :=
  [marginfi_group, marginfi_account, signer, bank, destination_token_account,
   bank_liquidity_vault_authority, bank_liquidity_vault, token_program]

/-- Account metas of marginfi::accounts::LendingAccountLiquidate
.to_account_metas(Some(true)) (src/marginfi_ixs.rs lines 133-145). -/
def lendingAccountLiquidateMetas (marginfi_group liquidator_marginfi_account
    signer liquidatee_marginfi_account bank_liquidity_vault_authority
    bank_liquidity_vault bank_insurance_vault token_program asset_bank
    liab_bank : Pubkey) : List Pubkey :=
  [marginfi_group, liquidator_marginfi_account, signer,
   liquidatee_marginfi_account, bank_liquidity_vault_authority,
   bank_liquidity_vault, bank_insurance_vault, token_program, asset_bank,
   liab_bank]

/-- src/marginfi_ixs.rs make_deposit_ix (lines 9-34). Total: the builder has
no failure path. -/
def make_deposit_ix (marginfi_program_id marginfi_group marginfi_account
    signer bank signer_token_account bank_liquidity_vault
    token_program : Pubkey) (amount : Nat) : Instruction :=
  { program_id := marginfi_program_id
    accounts := lendingAccountDepositMetas marginfi_group marginfi_account
      signer bank signer_token_account bank_liquidity_vault token_program
    data := .lendingAccountDeposit amount }

/-- src/marginfi_ixs.rs make_repay_ix (lines 36-62). Total: the builder has
no failure path. -/
def make_repay_ix (marginfi_program_id marginfi_group marginfi_account signer
    bank signer_token_account bank_liquidity_vault token_program : Pubkey)
    (amount : Nat) (repay_all : Option Bool) : Instruction :=
  { program_id := marginfi_program_id
    accounts := lendingAccountRepayMetas marginfi_group marginfi_account
      signer bank signer_token_account bank_liquidity_vault token_program
    data := .lendingAccountRepay amount repay_all }

/-- src/marginfi_ixs.rs make_withdraw_ix (lines 64-115). The source first
builds a local vector of the fixed metas extended with the observation
accounts, but that vector is never used: the returned Instruction is
constructed from a fresh fixed-account list (lines 96-108), so the
observation_accounts parameter does not reach the result. -/
def make_withdraw_ix (marginfi_program_id marginfi_group marginfi_account
    signer bank destination_token_account bank_liquidity_vault_authority
    bank_liquidity_vault token_program : Pubkey)
    (observation_accounts : List Pubkey) (amount : Nat)
    (withdraw_all : Option Bool) : Instruction :=
  let accounts :=
    (lendingAccountWithdrawMetas marginfi_group marginfi_account signer bank
      destination_token_account bank_liquidity_vault_authority
      bank_liquidity_vault token_program) ++ observation_accounts
  let _ := accounts
  { program_id := marginfi_program_id
    accounts := lendingAccountWithdrawMetas marginfi_group marginfi_account
      signer bank destination_token_account bank_liquidity_vault_authority
      bank_liquidity_vault token_program
    data := .lendingAccountWithdraw amount withdraw_all }

/-- src/marginfi_ixs.rs make_liquidate_ix (lines 117-164): the fixed
liquidation metas, then the liquidatee_observation_accounts parameter block,
then the liquidator_observation_accounts parameter block. Total: the builder
has no failure path. -/
def make_liquidate_ix (marginfi_program_id marginfi_group marginfi_account
    asset_bank liab_bank signer liquidatee_marginfi_account
    bank_liquidity_vault_authority bank_liquidity_vault bank_insurance_vault
    token_program : Pubkey)
    (liquidatee_observation_accounts liquidator_observation_accounts :
      List Pubkey)
    (asset_amount : Nat) : Instruction :=
  let accounts := lendingAccountLiquidateMetas marginfi_group
    marginfi_account signer liquidatee_marginfi_account
    bank_liquidity_vault_authority bank_liquidity_vault bank_insurance_vault
    token_program asset_bank liab_bank
  let accounts := accounts ++ liquidatee_observation_accounts
  let accounts := accounts ++ liquidator_observation_accounts
  { program_id := marginfi_program_id
    accounts := accounts
    data := .lendingAccountLiquidate asset_amount }

/-- Distinguished program id of the solana compute-budget program (external
constant; only its distinctness from protocol data matters). -/
def computeBudgetProgramId : Pubkey := 2 ^ 200 + 1

/-- Distinguished program id of the solana system program (external
constant), used by system_instruction::transfer. -/
def systemProgramId : Pubkey := 2 ^ 200 + 2

/-- solana_sdk ComputeBudgetInstruction::set_compute_unit_limit. -/
def set_compute_unit_limit (units : Nat) : Instruction :=
  { program_id := computeBudgetProgramId
    accounts := []
    data := .setComputeUnitLimit units }

/-- solana_sdk ComputeBudgetInstruction::set_compute_unit_price. -/
def set_compute_unit_price (micro_lamports : Nat) : Instruction :=
  { program_id := computeBudgetProgramId
    accounts := []
    data := .setComputeUnitPrice micro_lamports }

/-- solana_sdk system_instruction::transfer(from, to, lamports): a system
program instruction whose accounts are the source then the destination. -/
def system_transfer (from_pubkey to_pubkey : Pubkey) (lamports : Nat) :
    Instruction :=
  { program_id := systemProgramId
    accounts := [from_pubkey, to_pubkey]
    data := .systemTransfer lamports }

/-- True exactly on the two compute-budget instructions. -/
def isComputeBudgetIx (ix : Instruction) : Bool :=
  match ix.data with
  | .setComputeUnitLimit _ => true
  | .setComputeUnitPrice _ => true
  | _ => false

/-- True exactly on the four marginfi protocol instructions of the
liquidation/withdraw/repay/deposit kind. -/
def isProtocolIx (ix : Instruction) : Bool :=
  match ix.data with
  | .lendingAccountDeposit _ => true
  | .lendingAccountRepay _ _ => true
  | .lendingAccountWithdraw _ _ => true
  | .lendingAccountLiquidate _ => true
  | _ => false

/-- marginfi_account::TxConfig as consumed by the four LiquidatorAccount
methods: the optional compute-unit price (src/wrappers/liquidator_account.rs
lines 109, 172, 223, 269). -/
structure TxConfig where
  compute_unit_price_micro_lamports : Option Nat
  deriving DecidableEq, Repr

/-- The on-chain bank fields read by LiquidatorAccount (bank.liquidity_vault,
bank.insurance_vault). -/
structure Bank where
  liquidity_vault : Pubkey
  insurance_vault : Pubkey
  deriving DecidableEq, Repr

/-- wrappers::bank::BankWrapper: a bank address plus its bank snapshot. -/
structure BankWrapper where
  address : Pubkey
  bank : Bank
  deriving DecidableEq, Repr

/-- wrappers::marginfi_account::MarginfiAccountWrapper: a position address
plus the bank addresses it currently has exposure to, in the stable order of
its lending account (spec section 3, AccountReference). -/
structure MarginfiAccountWrapper where
  address : Pubkey
  exposures : List Pubkey
  deriving DecidableEq, Repr

/-- Keeps the first occurrence of each element, dropping later duplicates;
`seen` accumulates the elements already emitted. -/
def dedupKeepFirst (seen : List Pubkey) : List Pubkey → List Pubkey
  | [] => []
  | x :: xs =>
    if seen.contains x then dedupKeepFirst seen xs
    else x :: dedupKeepFirst (x :: seen) xs

/-- Modelled from the spec: MarginfiAccountWrapper::get_observation_accounts
is defined in src/wrappers/marginfi_account.rs, which is not part of this
snapshot (only its callers are). Per spec section 4.2, the resolver, given
the position with its current bank exposures, the banks the action will add
exposure to, and an exclusion list, returns the exposure set minus the
exclusions in stable first-occurrence order with no duplicates. The bank
registry argument of the source call sites supplies per-bank metadata only
and does not affect membership or order, so it is not a parameter here. -/
def MarginfiAccountWrapper.get_observation_accounts
    (a : MarginfiAccountWrapper) (include_banks exclude_banks : List Pubkey) :
    List Pubkey :=
  dedupKeepFirst []
    ((a.exposures ++ include_banks).filter
      (fun b => !(exclude_banks.contains b)))

/-- marginfi BankVaultType (only Liquidity is used by this core). -/
inductive BankVaultType where
  | Liquidity
  | Insurance
  | Fee
  deriving DecidableEq, Repr

def BankVaultType.toNat : BankVaultType → Nat
  | .Liquidity => 0
  | .Insurance => 1
  | .Fee => 2

/-- Modelled from the spec: crate::utils::find_bank_vault_authority_pda is
defined in src/utils.rs, which is not part of this snapshot. Per spec
section 3 it is the deterministic protocol-derived vault-authority address
for a bank; it is modelled as an injective encoding of its three arguments
paired with a bump byte. No claim depends on its value, only on where the
result is placed. -/
def find_bank_vault_authority_pda (bank_pk : Pubkey) (t : BankVaultType)
    (pid : Pubkey) : Pubkey × Nat :=
  (Nat.pair (Nat.pair bank_pk pid) t.toNat, 255)

/-- wrappers::liquidator_account::LiquidatorAccount (fields read by the four
methods; signer_keypair is modelled by the pubkey it signs with). -/
structure LiquidatorAccount where
  account_wrapper : MarginfiAccountWrapper
  signer_pk : Pubkey
  program_id : Pubkey
  token_program : Pubkey
  group : Pubkey
  deriving DecidableEq, Repr

/-- A signed transaction as assembled by Transaction::new_signed_with_payer:
the instruction sequence in the order given, the fee payer, and the recent
blockhash it was signed against. -/
structure Transaction where
  instructions : List Instruction
  fee_payer : Pubkey
  recent_blockhash : Nat
  deriving DecidableEq, Repr

/-- The liquidate instruction built by LiquidatorAccount::liquidate
(src/wrappers/liquidator_account.rs lines 64-103). The call site passes its
liquidator_observation_accounts value in the positional slot of the
liquidatee_observation_accounts parameter of make_liquidate_ix and vice
versa; it also passes the two oracle keys of the banks, for which
make_liquidate_ix as defined in src/marginfi_ixs.rs has no parameters, so
they do not reach the built instruction. -/
def LiquidatorAccount.liquidate_ix (la : LiquidatorAccount)
    (liquidate_account : MarginfiAccountWrapper)
    (asset_bank liab_bank : BankWrapper) (asset_amount : Nat) : Instruction :=
  let liquidator_account_address := la.account_wrapper.address
  let liquidatee_account_address := liquidate_account.address
  let signer_pk := la.signer_pk
  let bank_liquidaity_vault_authority :=
    (find_bank_vault_authority_pda liab_bank.address .Liquidity
      la.program_id).1
  let bank_liquidaity_vault := liab_bank.bank.liquidity_vault
  let bank_insurante_vault := liab_bank.bank.insurance_vault
  let liquidator_observation_accounts :=
    la.account_wrapper.get_observation_accounts
      [liab_bank.address, asset_bank.address] []
  let liquidatee_observation_accounts :=
    liquidate_account.get_observation_accounts [] []
  make_liquidate_ix la.program_id la.group liquidator_account_address
    asset_bank.address liab_bank.address signer_pk
    liquidatee_account_address bank_liquidaity_vault_authority
    bank_liquidaity_vault bank_insurante_vault la.token_program
    liquidator_observation_accounts liquidatee_observation_accounts
    asset_amount

/-- The instruction sequence LiquidatorAccount::liquidate hands to the
transaction: the liquidate instruction, then the compute-unit-limit
instruction, then optionally the compute-unit-price instruction
(src/wrappers/liquidator_account.rs lines 105-113). -/
def LiquidatorAccount.liquidate_ixs (la : LiquidatorAccount)
    (liquidate_account : MarginfiAccountWrapper)
    (asset_bank liab_bank : BankWrapper) (asset_amount : Nat)
    (send_cfg : TxConfig) : List Instruction :=
  let liquidate_ix :=
    la.liquidate_ix liquidate_account asset_bank liab_bank asset_amount
  let compute_budget_limit_ix := set_compute_unit_limit 400000
  let ixs := [liquidate_ix, compute_budget_limit_ix]
  match send_cfg.compute_unit_price_micro_lamports with
  | some price => ixs ++ [set_compute_unit_price price]
  | none => ixs

/-- The transaction assembled and signed by LiquidatorAccount::liquidate
(src/wrappers/liquidator_account.rs lines 115-120). -/
def LiquidatorAccount.liquidate_tx (la : LiquidatorAccount)
    (liquidate_account : MarginfiAccountWrapper)
    (asset_bank liab_bank : BankWrapper) (asset_amount : Nat)
    (send_cfg : TxConfig) (blockhash : Nat) : Transaction :=
  { instructions :=
      la.liquidate_ixs liquidate_account asset_bank liab_bank asset_amount
        send_cfg
    fee_payer := la.signer_pk
    recent_blockhash := blockhash }

/-- The exclusion list LiquidatorAccount::withdraw hands to the resolver:
the withdrawn bank when the withdraw-all flag is set, nothing otherwise
(src/wrappers/liquidator_account.rs lines 140-144). -/
def LiquidatorAccount.withdraw_banks_to_exclude (bank : BankWrapper)
    (withdraw_all : Option Bool) : List Pubkey :=
  if withdraw_all.getD false then [bank.address] else []

/-- The observation set LiquidatorAccount::withdraw passes into instruction
building (src/wrappers/liquidator_account.rs lines 146-148). -/
def LiquidatorAccount.withdraw_observation_accounts
    (la : LiquidatorAccount) (bank : BankWrapper)
    (withdraw_all : Option Bool) : List Pubkey :=
  la.account_wrapper.get_observation_accounts []
    (LiquidatorAccount.withdraw_banks_to_exclude bank withdraw_all)

/-- The withdraw instruction built by LiquidatorAccount::withdraw
(src/wrappers/liquidator_account.rs lines 150-168). -/
def LiquidatorAccount.withdraw_ix (la : LiquidatorAccount)
    (bank : BankWrapper) (token_account : Pubkey) (amount : Nat)
    (withdraw_all : Option Bool) : Instruction :=
  make_withdraw_ix la.program_id la.group la.account_wrapper.address
    la.signer_pk bank.address token_account
    (find_bank_vault_authority_pda bank.address .Liquidity la.program_id).1
    bank.bank.liquidity_vault la.token_program
    (la.withdraw_observation_accounts bank withdraw_all) amount withdraw_all

/-- The instruction sequence LiquidatorAccount::withdraw hands to the
transaction: the withdraw instruction, then optionally the
compute-unit-price instruction (src/wrappers/liquidator_account.rs lines
170-176). -/
def LiquidatorAccount.withdraw_ixs (la : LiquidatorAccount)
    (bank : BankWrapper) (token_account : Pubkey) (amount : Nat)
    (withdraw_all : Option Bool) (send_cfg : TxConfig) : List Instruction :=
  let withdraw_ix := la.withdraw_ix bank token_account amount withdraw_all
  let ixs := [withdraw_ix]
  match send_cfg.compute_unit_price_micro_lamports with
  | some price => ixs ++ [set_compute_unit_price price]
  | none => ixs

/-- The repay instruction built by LiquidatorAccount::repay: the source
passes self.token_program as the marginfi_program_id argument of
make_repay_ix (src/wrappers/liquidator_account.rs lines 206-217). -/
def LiquidatorAccount.repay_ix (la : LiquidatorAccount) (bank : BankWrapper)
    (token_account : Pubkey) (amount : Nat) (repay_all : Option Bool) :
    Instruction :=
  make_repay_ix la.token_program la.group la.account_wrapper.address
    la.signer_pk bank.address token_account bank.bank.liquidity_vault
    la.token_program amount repay_all

/-- The instruction sequence LiquidatorAccount::repay hands to the
transaction (src/wrappers/liquidator_account.rs lines 221-227). -/
def LiquidatorAccount.repay_ixs (la : LiquidatorAccount) (bank : BankWrapper)
    (token_account : Pubkey) (amount : Nat) (repay_all : Option Bool)
    (sender_cfg : TxConfig) : List Instruction :=
  let repay_ix := la.repay_ix bank token_account amount repay_all
  let ixs := [repay_ix]
  match sender_cfg.compute_unit_price_micro_lamports with
  | some price => ixs ++ [set_compute_unit_price price]
  | none => ixs

/-- The deposit instruction built by LiquidatorAccount::deposit
(src/wrappers/liquidator_account.rs lines 253-263). -/
def LiquidatorAccount.deposit_ix (la : LiquidatorAccount)
    (bank : BankWrapper) (token_account : Pubkey) (amount : Nat) :
    Instruction :=
  make_deposit_ix la.program_id la.group la.account_wrapper.address
    la.signer_pk bank.address token_account bank.bank.liquidity_vault
    la.token_program amount

/-- The instruction sequence LiquidatorAccount::deposit hands to the
transaction (src/wrappers/liquidator_account.rs lines 267-273). -/
def LiquidatorAccount.deposit_ixs (la : LiquidatorAccount)
    (bank : BankWrapper) (token_account : Pubkey) (amount : Nat)
    (send_cfg : TxConfig) : List Instruction :=
  let deposit_ix := la.deposit_ix bank token_account amount
  let ixs := [deposit_ix]
  match send_cfg.compute_unit_price_micro_lamports with
  | some price => ixs ++ [set_compute_unit_price price]
  | none => ixs

/-- The transaction assembled and signed by LiquidatorAccount::withdraw
(src/wrappers/liquidator_account.rs lines 180-185). -/
def LiquidatorAccount.withdraw_tx (la : LiquidatorAccount)
    (bank : BankWrapper) (token_account : Pubkey) (amount : Nat)
    (withdraw_all : Option Bool) (send_cfg : TxConfig) (blockhash : Nat) :
    Transaction :=
  { instructions := la.withdraw_ixs bank token_account amount withdraw_all
      send_cfg
    fee_payer := la.signer_pk
    recent_blockhash := blockhash }

/-- The transaction assembled and signed by LiquidatorAccount::repay
(src/wrappers/liquidator_account.rs lines 229-234). -/
def LiquidatorAccount.repay_tx (la : LiquidatorAccount) (bank : BankWrapper)
    (token_account : Pubkey) (amount : Nat) (repay_all : Option Bool)
    (sender_cfg : TxConfig) (blockhash : Nat) : Transaction :=
  { instructions := la.repay_ixs bank token_account amount repay_all
      sender_cfg
    fee_payer := la.signer_pk
    recent_blockhash := blockhash }

/-- The transaction assembled and signed by LiquidatorAccount::deposit
(src/wrappers/liquidator_account.rs lines 275-280). -/
def LiquidatorAccount.deposit_tx (la : LiquidatorAccount)
    (bank : BankWrapper) (token_account : Pubkey) (amount : Nat)
    (send_cfg : TxConfig) (blockhash : Nat) : Transaction :=
  { instructions := la.deposit_ixs bank token_account amount send_cfg
    fee_payer := la.signer_pk
    recent_blockhash := blockhash }

/-! ## The jito bundle sender (src/jito/mod.rs) -/

/-- One response of searcher_client.get_next_scheduled_leader: the next
scheduled leader slot and the current slot, both u64. -/
structure LeaderInfo where
  next_leader_slot : Nat
  current_slot : Nat
  deriving DecidableEq, Repr

/-- 2 to the 64th, the u64 modulus. -/
def U64MOD : Nat := 2 ^ 64

/-- Wrapping u64 subtraction, as performed by
next_leader.next_leader_slot - next_leader.current_slot on u64 values
(src/jito/mod.rs line 70). -/
def sub64 (a b : Nat) : Nat :=
  (a % U64MOD + (U64MOD - b % U64MOD)) % U64MOD

/-- The externally observable steps of JitoClient::send_transaction, in the
order the source performs them. -/
inductive JitoEvent where
  | subscribeBundleResults
  | getLatestBlockhash
  | getNextScheduledLeader
  | sleep500ms
  | pushTipTransfer
  | signTransactions (blockhash : Nat)
  | sendBundle
  deriving DecidableEq, Repr

/-- How the leader-wait loop of send_transaction ends. -/
inductive LoopExit where
  | panicked (msg : String)
  | stillWaiting
  | exited
  deriving DecidableEq, Repr

/-- The overall result of one run of send_transaction. `panicked` is a
process abort (expect, unwrap, out-of-bounds index); `errored` is an early
Err return through the question-mark operator; `blocked` means the supplied
leader responses ran out with the loop still waiting (the source loop would
keep polling); `ok` carries the submitted bundle and the blockhash its
transactions were signed against. -/
inductive RunResult where
  | panicked (msg : String)
  | errored (msg : String)
  | blocked
  | ok (bundle : List (List Instruction)) (signed_blockhash : Nat)
  deriving DecidableEq, Repr

/-- The environment of one send_transaction run: the outcomes the external
services hand back, in the order the source consumes them. -/
structure JitoEnv where
  subscribe_ok : Bool
  blockhash : Except String Nat
  leaders : List (Except String LeaderInfo)
  send_ok : Bool
  deriving Repr

/-- JitoClient fields used by send_transaction: the signing keypair modelled
by its pubkey, and the stored tip-account strings, each modelled by the
result Pubkey::from_str would give for it (none for a malformed string). -/
structure JitoClient where
  keypair_pk : Pubkey
  tip_accounts : List (Option Pubkey)
  deriving DecidableEq, Repr

/-- The while-loop of src/jito/mod.rs lines 61-73, run against a list of
leader responses: each iteration queries the next scheduled leader (panic
via expect if that query fails), computes the u64 slot distance, sleeps, and
re-checks; the loop exits once a distance at most 2 is observed. Returns the
emitted events and how the loop ended. -/
def leaderWaitRun : List (Except String LeaderInfo) →
    List JitoEvent × LoopExit
  | [] => ([], .stillWaiting)
  | .error _ :: _ =>
    ([.getNextScheduledLeader],
     .panicked "Failed to get next scheduled leader")
  | .ok l :: rest =>
    if sub64 l.next_leader_slot l.current_slot ≤ 2 then
      ([.getNextScheduledLeader, .sleep500ms], .exited)
    else
      let r := leaderWaitRun rest
      (.getNextScheduledLeader :: .sleep500ms :: r.1, r.2)

/-- JitoClient::send_transaction (src/jito/mod.rs lines 47-102): subscribe
to bundle results (panic via expect on failure), fetch the latest blockhash
(early Err return on failure), run the leader-wait loop, push the tip
transfer to tip_accounts[0] (panic on an empty list or a malformed string),
build the single signed transaction from the extended instruction list and
the blockhash fetched before the loop, and submit; a send failure is logged
and swallowed, so the run still ends in `ok`. Returns the event trace and
the result. -/
def JitoClient.send_transaction (c : JitoClient) (ixs : List Instruction)
    (lamports : Nat) (env : JitoEnv) : List JitoEvent × RunResult :=
  if !env.subscribe_ok then
    ([.subscribeBundleResults], .panicked "subscribe to bundle results")
  else
    match env.blockhash with
    | .error e =>
      ([.subscribeBundleResults, .getLatestBlockhash], .errored e)
    | .ok blockhash =>
      let loopRun := leaderWaitRun env.leaders
      let events := .subscribeBundleResults :: .getLatestBlockhash ::
        loopRun.1
      match loopRun.2 with
      | .panicked m => (events, .panicked m)
      | .stillWaiting => (events, .blocked)
      | .exited =>
        match c.tip_accounts.head? with
        | none =>
          (events, .panicked "index out of bounds: the len is 0")
        | some none =>
          (events, .panicked "called unwrap on a None value")
        | some (some tip) =>
          let ixs2 := ixs ++ [system_transfer c.keypair_pk tip lamports]
          let txs := [ixs2]
          let _ := env.send_ok
          (events ++ [.pushTipTransfer, .signTransactions blockhash,
            .sendBundle],
           .ok txs blockhash)

/-- How JitoClient::get_tip_accounts ends: a process abort or the updated
client. -/
inductive TipAccountsResult where
  | panicked (msg : String)
  | updated (c : JitoClient)
  deriving DecidableEq, Repr

/-- JitoClient::get_tip_accounts (src/jito/mod.rs lines 104-115): the query
result is demanded via expect, so a failed query panics (there is no error
return for it); on success the returned strings replace the stored tip
accounts. -/
def JitoClient.get_tip_accounts (c : JitoClient)
    (response : Except String (List (Option Pubkey))) : TipAccountsResult :=
  match response with
  | .error _ => .panicked "Failed to get tip accounts"
  | .ok accounts => .updated { c with tip_accounts := accounts }

/-! ## Concrete fixtures used by counterexamples and witnesses -/

/-- A concrete liquidator account: distinct addresses everywhere. -/
def la0 : LiquidatorAccount :=
  { account_wrapper := { address := 10, exposures := [21, 22] }
    signer_pk := 11
    program_id := 12
    token_program := 13
    group := 14 }

/-- A concrete liquidatee account. -/
def acct0 : MarginfiAccountWrapper := { address := 30, exposures := [21] }

/-- A concrete asset bank. -/
def assetBank0 : BankWrapper :=
  { address := 21, bank := { liquidity_vault := 41, insurance_vault := 42 } }

/-- A concrete liability bank. -/
def liabBank0 : BankWrapper :=
  { address := 22, bank := { liquidity_vault := 43, insurance_vault := 44 } }

/-- A configuration with no compute-unit price. -/
def cfg0 : TxConfig := { compute_unit_price_micro_lamports := none }

/-! ## Claim theorems -/

/-- C1: for every Liquidate action, the account list of the built
liquidation instruction is exactly the fixed liquidation accounts, then the
observation accounts of the liquidator, then the observation accounts of the
liquidatee, in that order, for any combination of bank exposures (in
particular any nonempty one). The call site of LiquidatorAccount::liquidate
passes its liquidator observation list in the positional slot of the
liquidatee parameter of make_liquidate_ix and vice versa, and
make_liquidate_ix appends its liquidatee parameter block first, so the two
swaps cancel and the liquidator block lands first. -/
theorem liquidate_ix_accounts_order (la : LiquidatorAccount)
    (liquidate_account : MarginfiAccountWrapper)
    (asset_bank liab_bank : BankWrapper) (asset_amount : Nat) :
    (la.liquidate_ix liquidate_account asset_bank liab_bank
        asset_amount).accounts =
      lendingAccountLiquidateMetas la.group la.account_wrapper.address
        la.signer_pk liquidate_account.address
        (find_bank_vault_authority_pda liab_bank.address .Liquidity
          la.program_id).1
        liab_bank.bank.liquidity_vault liab_bank.bank.insurance_vault
        la.token_program asset_bank.address liab_bank.address
      ++ la.account_wrapper.get_observation_accounts
          [liab_bank.address, asset_bank.address] []
      ++ liquidate_account.get_observation_accounts [] [] := by
  simp [LiquidatorAccount.liquidate_ix, make_liquidate_ix,
    List.append_assoc]

/-- C3: the Instruction returned by make_withdraw_ix carries exactly the
eight fixed withdraw accounts, and the observation_accounts parameter has no
effect on the returned instruction: the locally built extended vector is
discarded and the result is built from a fresh fixed-account list. -/
theorem make_withdraw_ix_ignores_observation_accounts
    (marginfi_program_id marginfi_group marginfi_account signer bank
      destination_token_account bank_liquidity_vault_authority
      bank_liquidity_vault token_program : Pubkey)
    (observation_accounts : List Pubkey) (amount : Nat)
    (withdraw_all : Option Bool) :
    (make_withdraw_ix marginfi_program_id marginfi_group marginfi_account
        signer bank destination_token_account bank_liquidity_vault_authority
        bank_liquidity_vault token_program observation_accounts amount
        withdraw_all).accounts =
      lendingAccountWithdrawMetas marginfi_group marginfi_account signer
        bank destination_token_account bank_liquidity_vault_authority
        bank_liquidity_vault token_program ∧
    make_withdraw_ix marginfi_program_id marginfi_group marginfi_account
        signer bank destination_token_account bank_liquidity_vault_authority
        bank_liquidity_vault token_program observation_accounts amount
        withdraw_all =
      make_withdraw_ix marginfi_program_id marginfi_group marginfi_account
        signer bank destination_token_account bank_liquidity_vault_authority
        bank_liquidity_vault token_program [] amount withdraw_all :=
  ⟨rfl, rfl⟩

/-- C4: the repay instruction built by LiquidatorAccount::repay carries the
token program id as its program_id field (self.token_program is passed as
the marginfi_program_id argument of make_repay_ix), and so differs from the
marginfi program id whenever the two ids differ. -/
theorem repay_ix_program_id_is_token_program (la : LiquidatorAccount)
    (bank : BankWrapper) (token_account : Pubkey) (amount : Nat)
    (repay_all : Option Bool) :
    (la.repay_ix bank token_account amount repay_all).program_id =
      la.token_program ∧
    (la.token_program ≠ la.program_id →
      (la.repay_ix bank token_account amount repay_all).program_id ≠
        la.program_id) :=
  ⟨rfl, fun h => h⟩

/-- Witness for C4 at a concrete account whose token program id differs from
its marginfi program id. -/
theorem repay_ix_program_id_witness :
    (la0.repay_ix assetBank0 7 100 none).program_id = la0.token_program ∧
    (la0.repay_ix assetBank0 7 100 none).program_id ≠ la0.program_id :=
  ⟨(repay_ix_program_id_is_token_program la0 assetBank0 7 100 none).1,
   (repay_ix_program_id_is_token_program la0 assetBank0 7 100 none).2
     (by decide)⟩

/-- C2 counterexample: at a concrete Liquidate action the assembled
instruction sequence has the protocol (liquidate) instruction at index 0 and
the compute-unit-limit instruction at index 1, so a compute-budget
instruction does not precede the protocol instruction as the claim states:
it follows it. -/
theorem compute_budget_follows_protocol_cex :
    ((la0.liquidate_tx acct0 assetBank0 liabBank0 1000 cfg0
        99).instructions).map isProtocolIx = [true, false] ∧
    ((la0.liquidate_tx acct0 assetBank0 liabBank0 1000 cfg0
        99).instructions).map isComputeBudgetIx = [false, true] := by
  decide

/-- C2 amended: in every transaction assembled by the liquidate, withdraw,
repay and deposit paths, the protocol instruction is the first instruction
and every compute-budget instruction (the fixed compute-unit limit for
liquidate and the optional compute-unit price) follows it. -/
theorem protocol_ix_first_compute_budget_after (la : LiquidatorAccount)
    (liquidate_account : MarginfiAccountWrapper)
    (asset_bank liab_bank bank : BankWrapper) (token_account : Pubkey)
    (asset_amount amount : Nat) (all_flag : Option Bool) (cfg : TxConfig)
    (blockhash : Nat) :
    (((la.liquidate_tx liquidate_account asset_bank liab_bank asset_amount
        cfg blockhash).instructions).take 1).all isProtocolIx = true ∧
    (((la.liquidate_tx liquidate_account asset_bank liab_bank asset_amount
        cfg blockhash).instructions).drop 1).all isComputeBudgetIx = true ∧
    (((la.withdraw_tx bank token_account amount all_flag cfg
        blockhash).instructions).take 1).all isProtocolIx = true ∧
    (((la.withdraw_tx bank token_account amount all_flag cfg
        blockhash).instructions).drop 1).all isComputeBudgetIx = true ∧
    (((la.repay_tx bank token_account amount all_flag cfg
        blockhash).instructions).take 1).all isProtocolIx = true ∧
    (((la.repay_tx bank token_account amount all_flag cfg
        blockhash).instructions).drop 1).all isComputeBudgetIx = true ∧
    (((la.deposit_tx bank token_account amount cfg
        blockhash).instructions).take 1).all isProtocolIx = true ∧
    (((la.deposit_tx bank token_account amount cfg
        blockhash).instructions).drop 1).all isComputeBudgetIx = true := by
  cases h : cfg.compute_unit_price_micro_lamports <;>
    simp [LiquidatorAccount.liquidate_tx, LiquidatorAccount.liquidate_ixs,
      LiquidatorAccount.withdraw_tx, LiquidatorAccount.withdraw_ixs,
      LiquidatorAccount.repay_tx, LiquidatorAccount.repay_ixs,
      LiquidatorAccount.deposit_tx, LiquidatorAccount.deposit_ixs,
      LiquidatorAccount.liquidate_ix, LiquidatorAccount.withdraw_ix,
      LiquidatorAccount.repay_ix, LiquidatorAccount.deposit_ix,
      make_liquidate_ix, make_withdraw_ix, make_repay_ix, make_deposit_ix,
      set_compute_unit_limit, set_compute_unit_price, isProtocolIx,
      isComputeBudgetIx, h]

/-- C9 counterexample: at the all-zero input, where the claim requires
instruction building to fail with a MissingAccount error, make_deposit_ix
succeeds and returns an ordinary instruction; the builders in
src/marginfi_ixs.rs have no failure channel and perform no zero-address
check. -/
theorem builders_no_zero_address_failure_cex :
    make_deposit_ix 0 0 0 0 0 0 0 0 0 =
      { program_id := 0, accounts := [0, 0, 0, 0, 0, 0, 0],
        data := .lendingAccountDeposit 0 } :=
  rfl

/-- C9 amended: instruction building never fails. The builders are total,
signal no MissingAccount error, and for every input, including zero/default
addresses, return the instruction with the fixed account layout (plus, for
liquidate, the two appended observation blocks). -/
theorem builders_total_no_missing_account_check
    (marginfi_program_id marginfi_group marginfi_account signer bank
      signer_token_account bank_liquidity_vault token_program asset_bank
      liab_bank liquidatee_marginfi_account bank_liquidity_vault_authority
      bank_insurance_vault : Pubkey)
    (liquidatee_observation_accounts liquidator_observation_accounts :
      List Pubkey)
    (amount : Nat) :
    (make_deposit_ix marginfi_program_id marginfi_group marginfi_account
        signer bank signer_token_account bank_liquidity_vault token_program
        amount).accounts =
      lendingAccountDepositMetas marginfi_group marginfi_account signer bank
        signer_token_account bank_liquidity_vault token_program ∧
    (make_liquidate_ix marginfi_program_id marginfi_group marginfi_account
        asset_bank liab_bank signer liquidatee_marginfi_account
        bank_liquidity_vault_authority bank_liquidity_vault
        bank_insurance_vault token_program liquidatee_observation_accounts
        liquidator_observation_accounts amount).accounts =
      (lendingAccountLiquidateMetas marginfi_group marginfi_account signer
        liquidatee_marginfi_account bank_liquidity_vault_authority
        bank_liquidity_vault bank_insurance_vault token_program asset_bank
        liab_bank ++ liquidatee_observation_accounts) ++
        liquidator_observation_accounts :=
  ⟨rfl, rfl⟩

/-- Membership in the first-occurrence dedup implies membership in the
input list. -/
theorem mem_of_mem_dedupKeepFirst {x : Pubkey} :
    ∀ (seen l : List Pubkey), x ∈ dedupKeepFirst seen l → x ∈ l := by
  intro seen l
  induction l generalizing seen with
  | nil => simp [dedupKeepFirst]
  | cons a as ih =>
    simp only [dedupKeepFirst]
    split
    · intro h
      exact List.mem_cons_of_mem _ (ih _ h)
    · intro h
      rcases List.mem_cons.mp h with h | h
      · exact h ▸ List.mem_cons_self _ _
      · exact List.mem_cons_of_mem _ (ih _ h)

/-- C5: for every withdraw action with the withdraw-all flag set, the
withdrawn bank is placed on the exclusion list handed to the
observation-account resolver, so it never appears in the observation set
passed into instruction building. -/
theorem withdraw_all_bank_not_in_observation_set (la : LiquidatorAccount)
    (bank : BankWrapper) (withdraw_all : Option Bool)
    (h : withdraw_all = some true) :
    bank.address ∉ la.withdraw_observation_accounts bank withdraw_all := by
  subst h
  intro hmem
  have h1 : bank.address ∈
      (la.account_wrapper.exposures ++ ([] : List Pubkey)).filter
        (fun b => !(([bank.address] : List Pubkey).contains b)) := by
    refine mem_of_mem_dedupKeepFirst [] _ ?_
    simpa [LiquidatorAccount.withdraw_observation_accounts,
      MarginfiAccountWrapper.get_observation_accounts,
      LiquidatorAccount.withdraw_banks_to_exclude] using hmem
  have h2 := (List.mem_filter.mp h1).2
  simp at h2

/-- Witness for C5: the concrete asset bank, withdrawn in full from the
concrete liquidator account that has exposure to it, is absent from the
resolved observation set. -/
theorem withdraw_all_bank_not_in_observation_set_witness :
    assetBank0.address ∉
      la0.withdraw_observation_accounts assetBank0 (some true) :=
  withdraw_all_bank_not_in_observation_set la0 assetBank0 (some true) rfl

/-- A concrete jito client with one well-formed tip account. -/
def jc0 : JitoClient := { keypair_pk := 50, tip_accounts := [some 60] }

/-- A concrete jito client whose tip-account list is empty. -/
def jcNoTips : JitoClient := { keypair_pk := 50, tip_accounts := [] }

/-- The mock scheduler scenario of the spec: the relay reports leader
distance 5, then distance 1; everything else succeeds. -/
def envMock : JitoEnv :=
  { subscribe_ok := true
    blockhash := .ok 7
    leaders := [.ok { next_leader_slot := 5, current_slot := 0 },
                .ok { next_leader_slot := 1, current_slot := 0 }]
    send_ok := true }

/-- An environment whose bundle-result subscription fails. -/
def envBadSub : JitoEnv :=
  { subscribe_ok := false, blockhash := .ok 7, leaders := [],
    send_ok := true }

/-- If the leader-wait loop exits, some response carries a slot distance of
at most 2, and every response before it is a successful query whose distance
exceeds 2. -/
theorem leaderWaitRun_exited_first_le2 :
    ∀ (rs : List (Except String LeaderInfo)),
    (leaderWaitRun rs).2 = .exited →
    ∃ i, ∃ hi : i < rs.length,
      (∃ l, rs.get ⟨i, hi⟩ = .ok l ∧
        sub64 l.next_leader_slot l.current_slot ≤ 2) ∧
      ∀ j, ∀ hj : j < i, ∃ l, rs.get ⟨j, Nat.lt_trans hj hi⟩ = .ok l ∧
        2 < sub64 l.next_leader_slot l.current_slot := by
  intro rs
  induction rs with
  | nil => intro h; simp [leaderWaitRun] at h
  | cons r rest ih =>
    cases r with
    | error e => intro h; simp [leaderWaitRun] at h
    | ok l =>
      by_cases hle : sub64 l.next_leader_slot l.current_slot ≤ 2
      · intro _
        exact ⟨0, Nat.succ_pos _, ⟨l, rfl, hle⟩,
          fun j hj => absurd hj (Nat.not_lt_zero j)⟩
      · intro h
        have h2 : (leaderWaitRun rest).2 = .exited := by
          simpa [leaderWaitRun, hle] using h
        obtain ⟨i, hi, hok, hprev⟩ := ih h2
        refine ⟨i + 1, Nat.succ_lt_succ hi, by simpa using hok, ?_⟩
        intro j hj
        match j, hj with
        | 0, _ => exact ⟨l, rfl, Nat.lt_of_not_le hle⟩
        | (j + 1), hj =>
          have := hprev j (Nat.lt_of_succ_lt_succ hj)
          simpa using this

/-- Anatomy of a successful send_transaction run: the subscription
succeeded, the pre-wait blockhash is the one the bundle is signed against,
the leader-wait loop exited, the bundle is the single transaction made of
the input instructions with the tip transfer appended, and the trace is
subscribe, blockhash fetch, the loop polls, then tip push, signing and
submission. -/
theorem send_transaction_ok_cases (c : JitoClient) (ixs : List Instruction)
    (lamports : Nat) (env : JitoEnv) (txs : List (List Instruction))
    (bh : Nat)
    (h : (JitoClient.send_transaction c ixs lamports env).2 = .ok txs bh) :
    env.subscribe_ok = true ∧ env.blockhash = .ok bh ∧
    (leaderWaitRun env.leaders).2 = .exited ∧
    (∃ tip, c.tip_accounts.head? = some (some tip) ∧
      txs = [ixs ++ [system_transfer c.keypair_pk tip lamports]]) ∧
    (JitoClient.send_transaction c ixs lamports env).1 =
      .subscribeBundleResults :: .getLatestBlockhash ::
        ((leaderWaitRun env.leaders).1 ++
          [.pushTipTransfer, .signTransactions bh, .sendBundle]) := by
  cases hs : env.subscribe_ok with
  | false => simp [JitoClient.send_transaction, hs] at h
  | true =>
    cases hb : env.blockhash with
    | error e => simp [JitoClient.send_transaction, hs, hb] at h
    | ok bhv =>
      cases hl : (leaderWaitRun env.leaders).2 with
      | panicked m => simp [JitoClient.send_transaction, hs, hb, hl] at h
      | stillWaiting => simp [JitoClient.send_transaction, hs, hb, hl] at h
      | exited =>
        cases ht : c.tip_accounts.head? with
        | none =>
          simp [JitoClient.send_transaction, hs, hb, hl, ht] at h
        | some o =>
          cases o with
          | none =>
            simp [JitoClient.send_transaction, hs, hb, hl, ht] at h
          | some tip =>
            have hres : JitoClient.send_transaction c ixs lamports env =
                (.subscribeBundleResults :: .getLatestBlockhash ::
                  ((leaderWaitRun env.leaders).1 ++
                    [.pushTipTransfer, .signTransactions bhv, .sendBundle]),
                 .ok [ixs ++ [system_transfer c.keypair_pk tip lamports]]
                   bhv) := by
              simp [JitoClient.send_transaction, hs, hb, hl, ht]
            rw [hres] at h
            injection h with h1 h2
            subst h1
            subst h2
            exact ⟨rfl, rfl, rfl, ⟨tip, rfl, rfl⟩, by rw [hres]⟩

/-- C6: the bundle sender never submits while the observed slot distance to
the next scheduled producer exceeds the threshold of 2: whenever a run of
send_transaction submits, some leader query returned a distance of at most
2, and every query observed before it returned a distance above 2 (the
leader-wait loop exits only on such an observation). -/
theorem jito_submits_only_when_leader_within_threshold (c : JitoClient)
    (ixs : List Instruction) (lamports : Nat) (env : JitoEnv)
    (txs : List (List Instruction)) (bh : Nat)
    (h : (JitoClient.send_transaction c ixs lamports env).2 = .ok txs bh) :
    ∃ i, ∃ hi : i < env.leaders.length,
      (∃ l, env.leaders.get ⟨i, hi⟩ = .ok l ∧
        sub64 l.next_leader_slot l.current_slot ≤ 2) ∧
      ∀ j, ∀ hj : j < i, ∃ l,
        env.leaders.get ⟨j, Nat.lt_trans hj hi⟩ = .ok l ∧
        2 < sub64 l.next_leader_slot l.current_slot :=
  leaderWaitRun_exited_first_le2 env.leaders
    (send_transaction_ok_cases c ixs lamports env txs bh h).2.2.1

/-- Witness for C6 on the mock scheduler returning distance 5 then 1: the
run submits, and indeed the second observation is within the threshold
while the first exceeded it. -/
theorem jito_submits_only_when_leader_within_threshold_witness :
    ∃ i, ∃ hi : i < envMock.leaders.length,
      (∃ l, envMock.leaders.get ⟨i, hi⟩ = .ok l ∧
        sub64 l.next_leader_slot l.current_slot ≤ 2) ∧
      ∀ j, ∀ hj : j < i, ∃ l,
        envMock.leaders.get ⟨j, Nat.lt_trans hj hi⟩ = .ok l ∧
        2 < sub64 l.next_leader_slot l.current_slot :=
  jito_submits_only_when_leader_within_threshold jc0 [] 0 envMock
    [[system_transfer 50 60 0]] 7 (by decide)

/-- C7 counterexample: in a concrete submitting run the blockhash fetch is
the second event of the trace, before both leader polls, so the blockhash
used to sign the bundle is not fetched after the leader-wait loop
completes: it is fetched before the wait began. -/
theorem blockhash_fetch_before_wait_cex :
    (JitoClient.send_transaction jc0 [] 0 envMock).1 =
      [.subscribeBundleResults, .getLatestBlockhash,
       .getNextScheduledLeader, .sleep500ms, .getNextScheduledLeader,
       .sleep500ms, .pushTipTransfer, .signTransactions 7, .sendBundle] ∧
    (JitoClient.send_transaction jc0 [] 0 envMock).1.get? 1 =
      some .getLatestBlockhash ∧
    (JitoClient.send_transaction jc0 [] 0 envMock).1.get? 2 =
      some .getNextScheduledLeader := by
  decide

/-- C7 amended: the blockhash is fetched once, right after subscribing and
before the leader-wait loop begins (trace position 1, while every leader
poll sits at position 2 or later), and the bundle is signed against that
pre-wait blockhash, not against one fetched after the wait. -/
theorem blockhash_fetched_before_leader_wait (c : JitoClient)
    (ixs : List Instruction) (lamports : Nat) (env : JitoEnv)
    (txs : List (List Instruction)) (bh : Nat)
    (h : (JitoClient.send_transaction c ixs lamports env).2 = .ok txs bh) :
    env.blockhash = .ok bh ∧
    (JitoClient.send_transaction c ixs lamports env).1.get? 1 =
      some .getLatestBlockhash ∧
    ∀ k, (JitoClient.send_transaction c ixs lamports env).1.get? k =
      some .getNextScheduledLeader → 2 ≤ k := by
  obtain ⟨-, hbh, -, -, htr⟩ :=
    send_transaction_ok_cases c ixs lamports env txs bh h
  refine ⟨hbh, by rw [htr]; rfl, ?_⟩
  intro k hk
  rw [htr] at hk
  match k, hk with
  | 0, hk => simp at hk
  | 1, hk => simp at hk
  | (n + 2), _ => omega

/-- Witness for C7 amended on the mock run: the pre-wait fetch returned
blockhash 7 and the bundle is signed against it. -/
theorem blockhash_fetched_before_leader_wait_witness :
    envMock.blockhash = .ok 7 ∧
    (JitoClient.send_transaction jc0 [] 0 envMock).1.get? 1 =
      some .getLatestBlockhash ∧
    ∀ k, (JitoClient.send_transaction jc0 [] 0 envMock).1.get? k =
      some .getNextScheduledLeader → 2 ≤ k :=
  blockhash_fetched_before_leader_wait jc0 [] 0 envMock
    [[system_transfer 50 60 0]] 7 (by decide)

/-- Appending a single element makes it the last element. -/
theorem getLast?_append_singleton (l : List Instruction) (a : Instruction) :
    (l ++ [a]).getLast? = some a := by
  rw [List.getLast?_append_cons]
  rfl

/-- C8: every bundle assembled by a submitting run of the bundle sender
consists of transactions whose final one carries the tip transfer as its
last instruction (the source always assembles a one-transaction bundle and
pushes the tip transfer last). -/
theorem bundle_final_tx_tip_last (c : JitoClient) (ixs : List Instruction)
    (lamports : Nat) (env : JitoEnv) (txs : List (List Instruction))
    (bh : Nat)
    (h : (JitoClient.send_transaction c ixs lamports env).2 = .ok txs bh) :
    ∃ tip, c.tip_accounts.head? = some (some tip) ∧
      txs.getLast? =
        some (ixs ++ [system_transfer c.keypair_pk tip lamports]) ∧
      (ixs ++ [system_transfer c.keypair_pk tip lamports]).getLast? =
        some (system_transfer c.keypair_pk tip lamports) := by
  obtain ⟨-, -, -, ⟨tip, htip, htxs⟩, -⟩ :=
    send_transaction_ok_cases c ixs lamports env txs bh h
  exact ⟨tip, htip, by rw [htxs]; rfl, getLast?_append_singleton _ _⟩

/-- Witness for C8 on the mock run, whose bundle is the single transaction
holding just the tip transfer. -/
theorem bundle_final_tx_tip_last_witness :
    ∃ tip, jc0.tip_accounts.head? = some (some tip) ∧
      ([[system_transfer 50 60 0]] : List (List Instruction)).getLast? =
        some (([] : List Instruction) ++
          [system_transfer jc0.keypair_pk tip 0]) ∧
      (([] : List Instruction) ++
          [system_transfer jc0.keypair_pk tip 0]).getLast? =
        some (system_transfer jc0.keypair_pk tip 0) :=
  bundle_final_tx_tip_last jc0 [] 0 envMock [[system_transfer 50 60 0]] 7
    (by decide)

/-- C10 counterexample: with an empty tip-account list and every external
call succeeding, a concrete dispatch attempt of the bundle sender aborts
via panic at the tip-account index instead of returning a scoped error, so
the send path does panic on a per-action failure. -/
theorem jito_panics_on_empty_tip_accounts_cex :
    (JitoClient.send_transaction jcNoTips [] 0 envMock).2 =
      .panicked "index out of bounds: the len is 0" := by
  decide

/-- C10 amended: in the bundle send path, a relay subscription failure, a
leader query failure, an empty or malformed tip-account list, and a failed
tip-accounts fetch all abort via panic; only a blockhash fetch failure is
returned as an error scoped to the dispatch attempt, and a failed bundle
send is logged and swallowed (the result does not depend on it). -/
theorem jito_failure_modes (c : JitoClient) (ixs : List Instruction)
    (lamports : Nat) (env : JitoEnv) :
    (env.subscribe_ok = false →
      (JitoClient.send_transaction c ixs lamports env).2 =
        .panicked "subscribe to bundle results") ∧
    (∀ e, env.subscribe_ok = true → env.blockhash = .error e →
      (JitoClient.send_transaction c ixs lamports env).2 = .errored e) ∧
    (∀ bhv m rest, env.subscribe_ok = true → env.blockhash = .ok bhv →
      env.leaders = .error m :: rest →
      (JitoClient.send_transaction c ixs lamports env).2 =
        .panicked "Failed to get next scheduled leader") ∧
    (∀ bhv, env.subscribe_ok = true → env.blockhash = .ok bhv →
      (leaderWaitRun env.leaders).2 = .exited → c.tip_accounts = [] →
      (JitoClient.send_transaction c ixs lamports env).2 =
        .panicked "index out of bounds: the len is 0") ∧
    (∀ bhv, env.subscribe_ok = true → env.blockhash = .ok bhv →
      (leaderWaitRun env.leaders).2 = .exited →
      c.tip_accounts.head? = some none →
      (JitoClient.send_transaction c ixs lamports env).2 =
        .panicked "called unwrap on a None value") ∧
    (∀ b, (JitoClient.send_transaction c ixs lamports
        { env with send_ok := b }).2 =
      (JitoClient.send_transaction c ixs lamports env).2) ∧
    (∀ e, JitoClient.get_tip_accounts c (.error e) =
      .panicked "Failed to get tip accounts") := by
  refine ⟨?_, ?_, ?_, ?_, ?_, ?_, fun e => rfl⟩
  · intro hs
    simp [JitoClient.send_transaction, hs]
  · intro e hs hb
    simp [JitoClient.send_transaction, hs, hb]
  · intro bhv m rest hs hb hl
    simp [JitoClient.send_transaction, hs, hb, hl, leaderWaitRun]
  · intro bhv hs hb hex htips
    simp [JitoClient.send_transaction, hs, hb, hex, htips]
  · intro bhv hs hb hex htip
    simp [JitoClient.send_transaction, hs, hb, hex, htip]
  · intro b
    rcases env with ⟨s, bhv, ls, so⟩
    rcases s <;> rcases bhv <;>
      simp [JitoClient.send_transaction]

/-- Witness for C10 amended: the subscription-failure conjunct at a
concrete client and environment. -/
theorem jito_failure_modes_witness :
    (JitoClient.send_transaction jc0 [] 0 envBadSub).2 =
      .panicked "subscribe to bundle results" :=
  (jito_failure_modes jc0 [] 0 envBadSub).1 rfl

end Eva01
